import Mathlib

/-!
Verification development for the maxmind-server repository
(`main.py`, `config.py`): a FastAPI service exposing IP-geolocation
lookups backed by a locally cached MaxMind GeoLite2 City database,
refreshed by a background scheduler.

The Python source is shallowly embedded: the JSON documents built by
`lookup_ip` become an inductive `JVal` type, the response-pruning pass
(main.py lines 193-199) becomes `prune`, the refresh routine
`download_database` (lines 53-86) becomes a pure state transformer over
an explicit filesystem record, and FastAPI's registration-order route
matching becomes `resolveRoute` over the route table in declaration
order ('/', '/{ip_address}', '/database').
-/

set_option autoImplicit false

namespace MaxmindServer

/-- JSON-ish values as produced by `lookup_ip` in main.py: Python `None`,
booleans, integers, strings, dictionaries (association lists preserving
insertion order) and lists. -/
inductive JVal where
  | vnull
  | vbool (b : Bool)
  | vint (n : Int)
  | vstr (s : String)
  | vobj (fields : List (String × JVal))
  | varr (elems : List JVal)

namespace JVal

/-- Python's `v is None` test on an embedded value. -/
def isNull : JVal → Bool
  | .vnull => true
  | _ => false

/-- Python truthiness of a `JVal`: `None`, `False`, `0`, `""`, `{}` and `[]`
are falsy, everything else truthy (used by `any(v.values())` on line 194
of main.py). -/
def truthy : JVal → Bool
  | .vnull => false
  | .vbool b => b
  | .vint n => n != 0
  | .vstr s => s != ""
  | .vobj fields => !fields.isEmpty
  | .varr elems => !elems.isEmpty

end JVal

/-- `any(v.values())` for a Python dict `v` (main.py line 194): true iff
some value is truthy. -/
def anyTruthyObj (fields : List (String × JVal)) : Bool :=
  fields.any (fun kv => kv.2.truthy)

/-- The filter of the dict comprehension on main.py line 194:
`v is not None and (not isinstance(v, dict) or any(v.values()))`. -/
def keepTop : JVal → Bool
  | .vnull => false
  | .vobj fields => anyTruthyObj fields
  | _ => true

/-- The per-key pass of main.py lines 195-199: for a dict value, drop the
`None`-valued entries and delete the key entirely if the dict becomes
empty; other values are untouched. -/
def pruneGroup : JVal → Option JVal
  | .vobj fields =>
      if (fields.filter (fun kv => !kv.2.isNull)).isEmpty then none
      else some (.vobj (fields.filter (fun kv => !kv.2.isNull)))
  | v => some v

/-- The full response-pruning pass of main.py lines 193-199: first the
comprehension of line 194 (`keepTop`), then the in-place loop of lines
195-199 (`pruneGroup`), preserving key order. -/
def prune (r : List (String × JVal)) : List (String × JVal) :=
  (r.filter (fun kv => keepTop kv.2)).filterMap
    (fun kv => (pruneGroup kv.2).map (fun v => (kv.1, v)))

/-! ## Address validation

`validate_ip` (main.py lines 97-108) delegates to the external stdlib
collaborator `ipaddress.ip_address`; its acceptance of IPv4 and IPv6
literals is modelled below over `List Char` with structural recursion,
so that concrete instances evaluate inside the kernel. -/

/-- Split a character list on a separator character; like Python's
`str.split(sep)`, adjacent separators yield empty fields. -/
def splitChar (sep : Char) : List Char → List (List Char)
  | [] => [[]]
  | c :: rest =>
      let tail := splitChar sep rest
      if c = sep then [] :: tail
      else
        match tail with
        | [] => [[c]]
        | g :: gs => (c :: g) :: gs

/-- Hex digit as accepted in an IPv6 group. -/
def isHexDigitChar (c : Char) : Bool :=
  c.isDigit || ('a' ≤ c && c ≤ 'f') || ('A' ≤ c && c ≤ 'F')

/-- One IPv6 group: 1 to 4 hex digits. -/
def isHexGroup (g : List Char) : Bool :=
  decide (1 ≤ g.length) && decide (g.length ≤ 4) && g.all isHexDigitChar

/-- Decimal value of a digit string. -/
def digitsToNat (g : List Char) : Nat :=
  g.foldl (fun n c => n * 10 + (c.toNat - 48)) 0

/-- One dotted-quad octet as accepted by Python's `ipaddress.ip_address`:
1-3 decimal digits, value at most 255, and no leading zero. -/
def validOctet (g : List Char) : Bool :=
  decide (1 ≤ g.length) && decide (g.length ≤ 3) && g.all Char.isDigit &&
  !(decide (2 ≤ g.length) && g.take 1 == ['0']) &&
  decide (digitsToNat g ≤ 255)

/-- Modelled external collaborator: IPv4 acceptance of Python's
`ipaddress.ip_address` (reached through `validate_ip`, main.py
line 105): exactly four valid octets separated by dots. -/
def is_ipv4_chars (cs : List Char) : Bool :=
  match splitChar '.' cs with
  | [a, b, c, d] => validOctet a && validOctet b && validOctet c && validOctet d
  | _ => false

/-- Count the hex groups in a colon-split field list, validating each; an
embedded IPv4 address is allowed only as the very last field and counts
as two groups. `none` when some field is malformed. -/
def groupCountAndValid (allowV4AtEnd : Bool) : List (List Char) → Option Nat
  | [] => some 0
  | [g] =>
      if isHexGroup g then some 1
      else if allowV4AtEnd && is_ipv4_chars g then some 2
      else none
  | g :: rest =>
      if isHexGroup g then (groupCountAndValid allowV4AtEnd rest).map (· + 1)
      else none

/-- Locate the single `::` marker in a colon-split field list whose head
is a nonempty field (leading-colon forms are handled by the caller):
returns the fields before and after it. A lone trailing empty field (a
bare trailing `:`), a second `::`, or no `::` at all yields `none`. -/
def findDoubleColon (acc : List (List Char)) :
    List (List Char) → Option (List (List Char) × List (List Char))
  | [] => none
  | [] :: rest =>
      match rest with
      | [] => none
      | [[]] => some (acc.reverse, [])
      | _ =>
          if rest.all (fun p => !p.isEmpty) then some (acc.reverse, rest)
          else none
  | p :: rest => findDoubleColon (p :: acc) rest

/-- Modelled external collaborator: IPv6 address-part acceptance of
Python's `ipaddress.ip_address` — eight hex groups, or at most seven
groups around a single `::` run, with an optional embedded IPv4 tail; a
leading or trailing colon is permitted only as part of a `::`. -/
def is_ipv6_chars (cs : List Char) : Bool :=
  let ps := splitChar ':' cs
  if ps.all (fun p => !p.isEmpty) then
    groupCountAndValid true ps == some 8
  else if ps == [[], [], []] then true
  else
    match ps with
    | [] :: [] :: rest =>
        (!rest.isEmpty && rest.all (fun p => !p.isEmpty)) &&
        (match groupCountAndValid true rest with
         | some b => decide (b ≤ 7)
         | none => false)
    | [] :: _ => false
    | _ =>
        match findDoubleColon [] ps with
        | some (l, r) =>
            (match groupCountAndValid false l, groupCountAndValid true r with
             | some a, some b => decide (a + b ≤ 7)
             | _, _ => false)
        | none => false

/-- Modelled external collaborator: full IPv6 literal acceptance of
Python's `ipaddress.ip_address` (3.9+), including an optional `%zone`
scope suffix: the part before the first `%` must be a valid IPv6
address and the scope id must be nonempty and contain no further `%`. -/
def is_ipv6_with_zone (cs : List Char) : Bool :=
  match splitChar '%' cs with
  | [addr] => is_ipv6_chars addr
  | [addr, zone] => is_ipv6_chars addr && !zone.isEmpty
  | _ => false

/-- `validate_ip` (main.py lines 97-108): true iff the string parses as a
syntactically valid IPv4 or IPv6 address. -/
def validate_ip (ip : String) : Bool :=
  is_ipv4_chars ip.data || is_ipv6_with_zone ip.data

/-! ## The geoip2 reader response and result construction
(main.py lines 143-191). Numeric reader fields (floats and ints) are
modelled as `Option Int`: `none` is a Python-falsy/absent attribute and
`some n` a present value whose Python truthiness is `n ≠ 0`; string
fields as `Option String` with truthiness `s ≠ ""`; the `hasattr`-guarded
boolean attributes as `Option Bool` where `none` models a missing
attribute. A `none` group models a falsy `response.<group>` object. -/

/-- `response.location` fields read on main.py lines 149-152. -/
structure RLocation where
  latitude : Option Int
  longitude : Option Int
  accuracy_radius : Option Int
  time_zone : Option String

/-- `response.city` fields read on main.py lines 155-156. -/
structure RCity where
  name : Option String
  geoname_id : Option Int

/-- `response.postal` field read on main.py line 159. -/
structure RPostal where
  code : Option String

/-- `response.continent` fields read on main.py lines 162-164. -/
structure RContinent where
  code : Option String
  geoname_id : Option Int
  name : Option String

/-- `response.country` / `response.registered_country` fields read on
main.py lines 167-176. -/
structure RCountry where
  iso_code : Option String
  geoname_id : Option Int
  name : Option String
  is_in_european_union : Option Bool

/-- `response.traits` fields read on main.py lines 179-180; `none` models
`hasattr` being false. -/
structure RTraits where
  is_anonymous_proxy : Option Bool
  is_satellite_provider : Option Bool

/-- One element of `response.subdivisions`, read on main.py lines 188-190. -/
structure RSubdivision where
  iso_code : Option String
  geoname_id : Option Int
  name : Option String

/-- The city record returned by the external geoip2 reader
(`reader.city`, main.py line 144). -/
structure CityResponse where
  location : Option RLocation
  city : Option RCity
  postal : Option RPostal
  continent : Option RContinent
  country : Option RCountry
  registered_country : Option RCountry
  traits : Option RTraits
  subdivisions : List RSubdivision

/-- The `str(x) if cond and x else None` pattern on a string field: the
value is kept only when present and truthy (nonempty). -/
def optStr : Option String → JVal
  | some s => if s = "" then .vnull else .vstr s
  | none => .vnull

/-- The `int(x)/float(x) if cond and x else None` pattern on a numeric
field: kept only when present and truthy (nonzero). -/
def optNum : Option Int → JVal
  | some n => if n = 0 then .vnull else .vint n
  | none => .vnull

/-- The `bool(x) if cond and hasattr(obj, attr) else None` pattern: kept
whenever the attribute exists, even when `False`. -/
def optBoolAttr : Option Bool → JVal
  | some b => .vbool b
  | none => .vnull

/-- The `... if response.group and <field test> else None` guard: a falsy
group yields `None` for each of its fields. -/
def guarded {α : Type} (g : Option α) (k : α → JVal) : JVal :=
  match g with
  | some x => k x
  | none => .vnull

/-- The raw `result` dictionary built on main.py lines 146-191, before
the pruning pass: the queried address under `ip`, seven nested group
dictionaries, and the `subdivisions` list (initialised empty on line 182
and appended to only when `response.subdivisions` is nonempty). -/
def build_result (ip_address : String) (response : CityResponse) :
    List (String × JVal) :=
  [("ip", .vstr ip_address),
   ("location", .vobj
     [("latitude", guarded response.location (fun l => optNum l.latitude)),
      ("longitude", guarded response.location (fun l => optNum l.longitude)),
      ("accuracy_radius", guarded response.location (fun l => optNum l.accuracy_radius)),
      ("time_zone", guarded response.location (fun l => optStr l.time_zone))]),
   ("city", .vobj
     [("name", guarded response.city (fun c => optStr c.name)),
      ("geoname_id", guarded response.city (fun c => optNum c.geoname_id))]),
   ("postal", .vobj
     [("code", guarded response.postal (fun p => optStr p.code))]),
   ("continent", .vobj
     [("code", guarded response.continent (fun c => optStr c.code)),
      ("geoname_id", guarded response.continent (fun c => optNum c.geoname_id)),
      ("name", guarded response.continent (fun c => optStr c.name))]),
   ("country", .vobj
     [("iso_code", guarded response.country (fun c => optStr c.iso_code)),
      ("geoname_id", guarded response.country (fun c => optNum c.geoname_id)),
      ("name", guarded response.country (fun c => optStr c.name)),
      ("is_in_european_union", guarded response.country (fun c => optBoolAttr c.is_in_european_union))]),
   ("registered_country", .vobj
     [("iso_code", guarded response.registered_country (fun c => optStr c.iso_code)),
      ("geoname_id", guarded response.registered_country (fun c => optNum c.geoname_id)),
      ("name", guarded response.registered_country (fun c => optStr c.name)),
      ("is_in_european_union", guarded response.registered_country (fun c => optBoolAttr c.is_in_european_union))]),
   ("traits", .vobj
     [("is_anonymous_proxy", guarded response.traits (fun t => optBoolAttr t.is_anonymous_proxy)),
      ("is_satellite_provider", guarded response.traits (fun t => optBoolAttr t.is_satellite_provider))]),
   ("subdivisions", .varr (response.subdivisions.map (fun s => .vobj
     [("iso_code", optStr s.iso_code),
      ("geoname_id", optNum s.geoname_id),
      ("name", optStr s.name)])))]

/-! ## The lookup endpoint (main.py lines 129-204)

The whole handler body sits inside a `try` whose
`except Exception as e: raise HTTPException(status_code=400, detail=str(e))`
also catches the `HTTPException`s raised inside it (FastAPI's
`HTTPException` subclasses `Exception`), so the 400 and 503 raised on
lines 138 and 141 are re-raised as status 400 with
`str(e) = "<status>: <detail>"` as the new detail. -/

/-- Outcome of the `lookup_ip` handler: a JSON document (HTTP 200) or an
`HTTPException` with status code and detail string. -/
inductive LookupOutcome where
  | ok (doc : List (String × JVal))
  | httpError (status : Nat) (detail : String)

/-- Environment of one lookup request: whether `DB_PATH` exists
(`os.path.exists`, main.py line 140) and what the external reader returns
for the queried address (`none` models the reader raising, e.g.
`AddressNotFoundError`, with the given message). -/
structure LookupEnv where
  dbExists : Bool
  readerResult : Option CityResponse
  readerErrorMsg : String

/-- `lookup_ip` (main.py lines 129-204) as a function of the request
environment and the path parameter. The second component records whether
the database reader was opened (`Reader(DB_PATH)`, line 143). Inner
`HTTPException`s are re-raised by the catch-all on lines 203-204 as
status 400 with the stringified original exception as detail. -/
def lookup_ip (env : LookupEnv) (ip_address : String) : LookupOutcome × Bool :=
  if !validate_ip ip_address then
    (.httpError 400 "400: Invalid IP address", false)
  else if !env.dbExists then
    (.httpError 400 "503: Database not available", false)
  else
    match env.readerResult with
    | none => (.httpError 400 env.readerErrorMsg, true)
    | some response => (.ok (prune (build_result ip_address response)), true)

/-! ## FastAPI routing (main.py lines 111, 129, 207)

Starlette matches a request path against the registered routes in
registration order and dispatches to the first match. The decorators in
main.py register, in file order: `GET /` (line 111), `GET /{ip_address}`
(line 129), `GET /database` (line 207). A path parameter matches exactly
one nonempty path segment. -/

/-- The three GET routes of main.py, one constructor per decorator. -/
inductive Route where
  | rootRoute
  | ipRoute
  | dbRoute
deriving DecidableEq

/-- The route table in registration order (main.py lines 111, 129, 207). -/
def routeTable : List Route := [.rootRoute, .ipRoute, .dbRoute]

/-- Starlette path matching for each route pattern: `/` matches only
itself, `/{ip_address}` matches `/` followed by one nonempty segment
without an inner slash, `/database` matches only itself. -/
def matchesRoute (path : String) : Route → Bool
  | .rootRoute => path.data == ['/']
  | .ipRoute =>
      match path.data with
      | '/' :: rest => !rest.isEmpty && !rest.contains '/'
      | _ => false
  | .dbRoute => path.data == "/database".data

/-- First-match route resolution over the registration-order table. -/
def resolveRoute (path : String) : Option Route :=
  routeTable.find? (matchesRoute path)

/-- Request headers and peer address used by `lookup_client_ip`
(main.py lines 119-124); a header is `none` when absent. -/
structure RequestInfo where
  xRealIp : Option String
  xForwardedFor : Option String
  peerHost : String

/-- The client-address selection of main.py lines 119-124: `X-Real-IP` if
present and truthy (nonempty), else `X-Forwarded-For` likewise, else the
transport peer address. -/
def client_ip_of (req : RequestInfo) : String :=
  if req.xRealIp.getD "" ≠ "" then req.xRealIp.getD ""
  else if req.xForwardedFor.getD "" ≠ "" then req.xForwardedFor.getD ""
  else req.peerHost

/-- A server response: a JSON document, a streamed file
(`FileResponse` with download filename and media type), or an
`HTTPException`-derived error. -/
inductive AppResponse where
  | jsonDoc (doc : List (String × JVal))
  | fileResp (fileName mediaType : String)
  | errorResp (status : Nat) (detail : String)

/-- Server-side state visible to the GET handlers: the lookup
environment and whether the canonical archive file exists on disk
(`os.path.exists(db_archive)`, main.py line 213). -/
structure ServerEnv where
  lookupEnv : LookupEnv
  archiveExists : Bool

/-- `download_database_archive` (main.py lines 207-216): 404 when the
archive has never been retrieved, else the archive streamed as
`application/gzip`. -/
def download_database_archive (env : ServerEnv) : AppResponse :=
  if !env.archiveExists then .errorResp 404 "Database archive not found"
  else .fileResp "GeoLite2-City.tar.gz" "application/gzip"

/-- Map a lookup outcome to the HTTP response FastAPI produces for it. -/
def outcomeToResponse : LookupOutcome × Bool → AppResponse
  | (.ok doc, _) => .jsonDoc doc
  | (.httpError status detail, _) => .errorResp status detail

/-- Dispatch of a GET request: resolve the path against the route table in
registration order and run the matched handler (main.py lines 111-216);
an unmatched path is Starlette's default 404. -/
def handle_get (env : ServerEnv) (req : RequestInfo) (path : String) : AppResponse :=
  match resolveRoute path with
  | some .rootRoute => outcomeToResponse (lookup_ip env.lookupEnv (client_ip_of req))
  | some .ipRoute => outcomeToResponse (lookup_ip env.lookupEnv (path.drop 1))
  | some .dbRoute => download_database_archive env
  | none => .errorResp 404 "Not Found"

/-! ## The refresh routine (main.py lines 53-94)

`download_database` is embedded as a pure transformer of an explicit
filesystem record. File contents are byte lists. The routine's
`try`/`except` catches every exception, logs it and returns `False`
(lines 84-86), so each failure mode is a `(false, _)` result; logging is
not modelled. -/

/-- The on-disk state the refresh path touches: the canonical compressed
archive (`BASE_DIR/assets/GeoLite2-City.tar.gz`), the active database
file (`DB_PATH`), and the `/tmp` staging directory as a name-content
association list. `none` means the file does not exist. -/
structure FS where
  archiveFile : Option (List Nat)
  dbFile : Option (List Nat)
  tmpFiles : List (String × List Nat)
deriving DecidableEq

/-- Create or overwrite a file in a directory listing. -/
def setFile (l : List (String × List Nat)) (name : String) (content : List Nat) :
    List (String × List Nat) :=
  (name, content) :: l.filter (fun e => e.1 ≠ name)

/-- Read a file from a directory listing. -/
def lookupFile (l : List (String × List Nat)) (name : String) : Option (List Nat) :=
  (l.find? (fun e => e.1 = name)).map (fun e => e.2)

/-- `os.remove` on a directory listing. -/
def removeFile (l : List (String × List Nat)) (name : String) :
    List (String × List Nat) :=
  l.filter (fun e => e.1 ≠ name)

/-- A gzip tar archive as the list of its members in order
(`tar.getmembers()`), each a name and content. -/
structure Archive where
  members : List (String × List Nat)
deriving DecidableEq

/-- `m.name.endswith('.mmdb')` (main.py line 72) as a char-list suffix
test. -/
def nameEndsWithMmdb (name : String) : Bool :=
  List.isSuffixOf ".mmdb".data name.data

/-- The member selection of main.py line 72:
`next((m for m in tar.getmembers() if m.name.endswith('.mmdb')), None)` —
the FIRST member whose name ends in `.mmdb`, or `none`. -/
def findMmdbMember (tar : Archive) : Option (String × List Nat) :=
  tar.members.find? (fun m => nameEndsWithMmdb m.1)

/-- Environment of one refresh attempt: the configured license key
(`none` or empty means unconfigured), the provider's HTTP status and
response body, the parse of that body as a gzip tar (`none` models
`tarfile.open` raising on a malformed body), and whether the
`shutil.copy2` on line 78 raises (e.g. disk full). -/
structure DownloadEnv where
  licenseKey : Option String
  httpStatus : Nat
  body : List Nat
  parsedArchive : Option Archive
  copyFails : Bool
deriving DecidableEq

/-- `download_database` (main.py lines 53-86). Steps in source order:
license-key check (line 57); HTTP status check (line 65); write the
response body DIRECTLY to the canonical archive path (lines 61, 68-69);
open the archive (line 71); select the first `.mmdb` member or fail
(lines 72-74); extract it to `/tmp` (lines 76-77); `shutil.copy2` it onto
`DB_PATH` (line 78); `os.remove` the staged file (line 79). Every raise
is caught by lines 84-86 and becomes a `(false, _)` result with the
filesystem as it stood at the raise. -/
def download_database (env : DownloadEnv) (fs : FS) : Bool × FS :=
  if env.licenseKey.getD "" = "" then (false, fs)
  else if env.httpStatus ≠ 200 then (false, fs)
  else
    let fs1 : FS := { fs with archiveFile := some env.body }
    match env.parsedArchive with
    | none => (false, fs1)
    | some tar =>
      match findMmdbMember tar with
      | none => (false, fs1)
      | some m =>
        let fs2 : FS := { fs1 with tmpFiles := setFile fs1.tmpFiles m.1 m.2 }
        if env.copyFails then (false, fs2)
        else
          (true, { fs2 with dbFile := some m.2,
                            tmpFiles := removeFile fs2.tmpFiles m.1 })

/-- `update_scheduler` (main.py lines 89-94) unrolled over a finite list
of per-tick environments: each tick awaits `download_database` and then —
regardless of the returned flag — sleeps and proceeds to the next tick. -/
def update_scheduler_run : List DownloadEnv → FS → FS
  | [], fs => fs
  | env :: rest, fs => update_scheduler_run rest (download_database env fs).2

/-! ## The database install step at byte granularity (main.py lines 76-79)

For atomicity claims the install of the staged file onto `DB_PATH` is
modelled one level finer: which primitive the source uses, and the
sequence of contents a concurrent reader of the canonical path can
observe while that primitive runs. -/

/-- The two candidate install primitives: an in-place copy
(`shutil.copy2`) or an atomic rename (`os.rename`/`os.replace`). -/
inductive InstallOp where
  | copyOp
  | renameOp
deriving DecidableEq

/-- The primitive main.py line 78 actually uses:
`shutil.copy2(temp_db, DB_PATH)`, an in-place copy. -/
def installOpUsed : InstallOp := .copyOp

/-- Contents observable at the canonical path while installing `newC`
over `oldC`: a rename exposes only the old file then the new file; a
copy truncates the target and appends, exposing every prefix of the new
content (modelled bytewise). -/
def installObservations (oldC newC : List Nat) : InstallOp → List (List Nat)
  | .renameOp => [oldC, newC]
  | .copyOp => (List.range (newC.length + 1)).map (fun i => newC.take i)

/-! ## Helper lemmas about the staging directory -/

lemma lookupFile_setFile (l : List (String × List Nat)) (n : String) (c : List Nat) :
    lookupFile (setFile l n c) n = some c := by
  simp [lookupFile, setFile]

lemma lookupFile_removeFile (l : List (String × List Nat)) (n : String) :
    lookupFile (removeFile l n) n = none := by
  induction l with
  | nil => rfl
  | cons e l ih =>
      by_cases h : e.1 = n
      · simpa [removeFile, h] using ih
      · simp only [removeFile, lookupFile] at ih ⊢
        simp [h, ih]

/-! ## Claim theorems: the refresh path -/

/-- C7: a refresh attempt that fails (here: any non-success provider
status, such as 403, with the license key configured) is swallowed inside
`download_database`: it returns the failure flag `false` instead of
propagating, leaves the filesystem — in particular the previously active
database file — unchanged, and the scheduler loop proceeds to its next
tick; moreover the scheduler proceeds to the next tick after every
attempt, whatever its outcome. -/
theorem c7_refresh_error_swallowed (env : DownloadEnv) (fs : FS)
    (ticks : List DownloadEnv)
    (hkey : env.licenseKey.getD "" ≠ "")
    (hstatus : env.httpStatus ≠ 200) :
    download_database env fs = (false, fs) ∧
    update_scheduler_run (env :: ticks) fs = update_scheduler_run ticks fs ∧
    (∀ e : DownloadEnv, update_scheduler_run (e :: ticks) fs =
        update_scheduler_run ticks (download_database e fs).2) := by
  have h1 : download_database env fs = (false, fs) := by
    simp [download_database, hkey, hstatus]
  refine ⟨h1, ?_, fun e => rfl⟩
  simp [update_scheduler_run, h1]

/-- C7 witness: the 403 scenario at concrete inputs. -/
theorem c7_refresh_error_swallowed_witness :
    download_database ⟨some "key", 403, [7], none, false⟩ ⟨some [1], some [2], []⟩ =
      (false, ⟨some [1], some [2], []⟩) ∧
    update_scheduler_run [⟨some "key", 403, [7], none, false⟩] ⟨some [1], some [2], []⟩ =
      update_scheduler_run [] ⟨some [1], some [2], []⟩ := by
  have h := c7_refresh_error_swallowed ⟨some "key", 403, [7], none, false⟩
    ⟨some [1], some [2], []⟩ [] (by decide) (by decide)
  exact ⟨h.1, h.2.1⟩

/-- C3 counterexample: the install step of main.py line 78 is
`shutil.copy2`, not a rename, and during a copy the canonical path can
be observed holding `[3]` — a state that is neither the old file `[1, 2]`
in full nor the new file `[3, 4]` in full. -/
theorem c3_install_not_atomic_counterexample :
    installOpUsed = InstallOp.copyOp ∧
    [3] ∈ installObservations [1, 2] [3, 4] installOpUsed ∧
    ([3] : List Nat) ≠ [1, 2] ∧ ([3] : List Nat) ≠ [3, 4] := by
  decide

/-- C3 amended: the staged database is installed by copying it directly
onto the canonical database path (`shutil.copy2`, main.py line 78), not
by a temporary-location write followed by a rename; every state
observable at the canonical path during the install is a (possibly
partial) prefix of the new file, and the truncated state — which is
neither the old file in full nor the new file in full when both are
nonempty — is among them. -/
theorem c3_amended_direct_copy (oldC newC : List Nat)
    (h1 : oldC ≠ []) (h2 : newC ≠ []) :
    installOpUsed = InstallOp.copyOp ∧
    (∀ c ∈ installObservations oldC newC installOpUsed, c <+: newC) ∧
    [] ∈ installObservations oldC newC installOpUsed ∧
    ([] : List Nat) ≠ oldC ∧ ([] : List Nat) ≠ newC := by
  refine ⟨rfl, ?_, ?_, fun h => h1 h.symm, fun h => h2 h.symm⟩
  · intro c hc
    simp only [installOpUsed, installObservations, List.mem_map,
      List.mem_range] at hc
    obtain ⟨i, _, rfl⟩ := hc
    exact List.take_prefix i newC
  · simp only [installOpUsed, installObservations, List.mem_map,
      List.mem_range]
    exact ⟨0, Nat.succ_pos _, rfl⟩

/-- C3 witness: the amended statement at concrete file contents. -/
theorem c3_amended_direct_copy_witness :
    installOpUsed = InstallOp.copyOp ∧
    [] ∈ installObservations [1] [2] installOpUsed := by
  have h := c3_amended_direct_copy [1] [2] (by decide) (by decide)
  exact ⟨h.1, h.2.2.1⟩

/-- C4 counterexample: an archive with TWO members named `*.mmdb` does
not make extraction fail — the refresh succeeds and silently installs
the content of the first matching member. -/
theorem c4_multi_match_counterexample :
    nameEndsWithMmdb "a.mmdb" = true ∧ nameEndsWithMmdb "b.mmdb" = true ∧
    download_database ⟨some "k", 200, [7],
        some ⟨[("a.mmdb", [1]), ("b.mmdb", [2])]⟩, false⟩ ⟨none, none, []⟩ =
      (true, ⟨some [7], some [1], []⟩) := by
  decide

/-- C4 amended: extraction fails when zero members match the `.mmdb`
suffix, but an archive with more than one matching member is resolved by
silently taking the FIRST match (`next(...)`, main.py line 72): the
attempt succeeds and installs that member's content. -/
theorem c4_amended_first_match (env : DownloadEnv) (fs : FS) (tar : Archive)
    (hkey : env.licenseKey.getD "" ≠ "") (h200 : env.httpStatus = 200)
    (hparse : env.parsedArchive = some tar) :
    (findMmdbMember tar = none →
        download_database env fs = (false, { fs with archiveFile := some env.body })) ∧
    (∀ m, findMmdbMember tar = some m → env.copyFails = false →
        (download_database env fs).1 = true ∧
        (download_database env fs).2.dbFile = some m.2) := by
  constructor
  · intro hnone
    simp [download_database, hkey, h200, hparse, hnone]
  · intro m hm hcopy
    constructor <;> simp [download_database, hkey, h200, hparse, hm, hcopy]

/-- C4 witness: the amended statement on the two-member archive — the
first member `a.mmdb` is the one installed. -/
theorem c4_amended_first_match_witness :
    (download_database ⟨some "k", 200, [7],
        some ⟨[("a.mmdb", [1]), ("b.mmdb", [2])]⟩, false⟩ ⟨none, none, []⟩).1 = true ∧
    (download_database ⟨some "k", 200, [7],
        some ⟨[("a.mmdb", [1]), ("b.mmdb", [2])]⟩, false⟩ ⟨none, none, []⟩).2.dbFile =
      some [1] := by
  exact (c4_amended_first_match ⟨some "k", 200, [7],
      some ⟨[("a.mmdb", [1]), ("b.mmdb", [2])]⟩, false⟩ ⟨none, none, []⟩
      ⟨[("a.mmdb", [1]), ("b.mmdb", [2])]⟩ (by decide) rfl rfl).2
    ("a.mmdb", [1]) (by decide) rfl

/-- C5 counterexample: with the canonical archive previously holding
`[9]`, a refresh whose download succeeds (status 200, body `[7]`) but
whose extraction fails (malformed archive) leaves the canonical archive
holding the NEW bytes `[7]`: the previously served archive is not left
unchanged, because the body is written directly to the canonical archive
path (main.py lines 61, 68-69) before extraction is attempted. -/
theorem c5_archive_overwrite_counterexample :
    download_database ⟨some "k", 200, [7], none, false⟩ ⟨some [9], some [0], []⟩ =
      (false, ⟨some [7], some [0], []⟩) ∧
    (some [7] : Option (List Nat)) ≠ some [9] := by
  decide

/-- C5 amended: the downloaded body is written directly to the canonical
archive path as soon as a 200 response is received, before extraction, so
any refresh reaching the write — including one whose extraction then
fails — leaves the canonical archive holding the new body; only attempts
failing before the write (non-200 status) leave the filesystem
unchanged. -/
theorem c5_amended_archive_written_before_extraction (env : DownloadEnv) (fs : FS)
    (hkey : env.licenseKey.getD "" ≠ "") :
    (env.httpStatus = 200 →
        (download_database env fs).2.archiveFile = some env.body) ∧
    (env.httpStatus ≠ 200 → (download_database env fs).2 = fs) := by
  constructor
  · intro h200
    simp only [download_database, hkey, h200]
    cases env.parsedArchive with
    | none => simp
    | some tar =>
        cases hfind : findMmdbMember tar with
        | none => simp [hfind]
        | some m =>
            cases hc : env.copyFails <;> simp [hfind, hc]
  · intro hstatus
    simp [download_database, hkey, hstatus]

/-- C5 witness: the amended statement at the counterexample's inputs. -/
theorem c5_amended_archive_written_before_extraction_witness :
    (download_database ⟨some "k", 200, [7], none, false⟩
        ⟨some [9], some [0], []⟩).2.archiveFile = some [7] := by
  exact (c5_amended_archive_written_before_extraction
    ⟨some "k", 200, [7], none, false⟩ ⟨some [9], some [0], []⟩ (by decide)).1 rfl

/-- C9 counterexample: a refresh that downloads and extracts successfully
but whose copy onto `DB_PATH` fails ends with the extracted member still
present in the `/tmp` staging area — the staging file is NOT removed at
the end of a failed attempt, because `os.remove` (main.py line 79) runs
only on the success path. -/
theorem c9_staging_left_behind_counterexample :
    (download_database ⟨some "k", 200, [7],
        some ⟨[("GeoLite2-City.mmdb", [5])]⟩, true⟩ ⟨none, none, []⟩).1 = false ∧
    lookupFile (download_database ⟨some "k", 200, [7],
        some ⟨[("GeoLite2-City.mmdb", [5])]⟩, true⟩ ⟨none, none, []⟩).2.tmpFiles
      "GeoLite2-City.mmdb" = some [5] := by
  decide

/-- C9 amended: the extracted staging file is removed at the end of an
attempt only when the attempt fully succeeds; an attempt that fails after
extraction (the copy onto the canonical database path raising) leaves the
extracted member behind in the staging area. -/
theorem c9_amended_staging_cleanup (env : DownloadEnv) (fs : FS) (tar : Archive)
    (m : String × List Nat)
    (hkey : env.licenseKey.getD "" ≠ "") (h200 : env.httpStatus = 200)
    (hparse : env.parsedArchive = some tar) (hfind : findMmdbMember tar = some m) :
    (env.copyFails = false →
        lookupFile (download_database env fs).2.tmpFiles m.1 = none) ∧
    (env.copyFails = true →
        lookupFile (download_database env fs).2.tmpFiles m.1 = some m.2) := by
  constructor <;> intro hc <;>
    simp [download_database, hkey, h200, hparse, hfind, hc,
      lookupFile_removeFile, lookupFile_setFile]

/-- C9 witness: the amended statement at concrete inputs, in both the
success and the copy-failure case. -/
theorem c9_amended_staging_cleanup_witness :
    lookupFile (download_database ⟨some "k", 200, [7],
        some ⟨[("GeoLite2-City.mmdb", [5])]⟩, false⟩ ⟨none, none, []⟩).2.tmpFiles
      "GeoLite2-City.mmdb" = none ∧
    lookupFile (download_database ⟨some "k", 200, [7],
        some ⟨[("GeoLite2-City.mmdb", [5])]⟩, true⟩ ⟨none, none, []⟩).2.tmpFiles
      "GeoLite2-City.mmdb" = some [5] := by
  refine ⟨(c9_amended_staging_cleanup _ ⟨none, none, []⟩
      ⟨[("GeoLite2-City.mmdb", [5])]⟩ ("GeoLite2-City.mmdb", [5])
      (by decide) rfl rfl (by decide)).1 rfl,
    (c9_amended_staging_cleanup _ ⟨none, none, []⟩
      ⟨[("GeoLite2-City.mmdb", [5])]⟩ ("GeoLite2-City.mmdb", [5])
      (by decide) rfl rfl (by decide)).2 rfl⟩

/-! ## Claim theorems: routing and the lookup path -/

/-- C1 (code bug): FastAPI matches routes in registration order, and
`/{ip_address}` (main.py line 129) is registered before `/database`
(line 207), so a GET for `/database` is dispatched to `lookup_ip` with
the path segment `database` as the address — even when the archive
exists on disk it answers 400 `Invalid IP address` instead of streaming
the archive or returning 404. -/
theorem c1_database_route_shadowed :
    resolveRoute "/database" = some Route.ipRoute ∧
    handle_get ⟨⟨true, none, "reader error"⟩, true⟩ ⟨none, none, "9.9.9.9"⟩
      "/database" = AppResponse.errorResp 400 "400: Invalid IP address" := by
  exact ⟨by decide, rfl⟩

/-- C2 (code bug): for a syntactically valid address with no database
file on disk, `lookup_ip` raises the intended 503 on main.py line 141,
but the catch-all `except Exception` on lines 203-204 catches that
`HTTPException` and re-raises it as status 400 with the stringified
original as detail — the caller sees 400, not 503. -/
theorem c2_no_database_surfaces_400_not_503 :
    validate_ip "8.8.8.8" = true ∧
    lookup_ip ⟨false, none, ""⟩ "8.8.8.8" =
      (LookupOutcome.httpError 400 "503: Database not available", false) := by
  exact ⟨by decide, rfl⟩

/-- C8: every address string that fails validation makes `lookup_ip`
fail with HTTP status 400 (main.py lines 137-138, re-raised by lines
203-204 with the same status), and the database reader is never
opened. -/
theorem c8_invalid_input_rejected_before_reader (env : LookupEnv) (ip : String)
    (h : validate_ip ip = false) :
    lookup_ip env ip = (.httpError 400 "400: Invalid IP address", false) := by
  simp [lookup_ip, h]

/-- C8 witness: the scenario at the concrete invalid address
`not-an-ip`, with a database present. -/
theorem c8_invalid_input_rejected_before_reader_witness :
    validate_ip "not-an-ip" = false ∧
    lookup_ip ⟨true, none, "err"⟩ "not-an-ip" =
      (LookupOutcome.httpError 400 "400: Invalid IP address", false) :=
  ⟨by decide,
    c8_invalid_input_rejected_before_reader ⟨true, none, "err"⟩ "not-an-ip" (by decide)⟩

/-- Helper: pruning a leading entry that the pass keeps unchanged
commutes with consing. -/
lemma prune_cons_stable (k : String) (v : JVal) (r : List (String × JVal))
    (hk : keepTop v = true) (hp : pruneGroup v = some v) :
    prune ((k, v) :: r) = (k, v) :: prune r := by
  simp [prune, List.filter_cons, List.filterMap_cons, hk, hp]

/-- C10: every successful lookup returns the pruned document, and that
document contains the top-level key `ip` mapped to exactly the queried
address string (main.py line 147); the pruning pass keeps it. -/
theorem c10_ip_key_preserved (env : LookupEnv) (ip : String) (resp : CityResponse)
    (hv : validate_ip ip = true) (hdb : env.dbExists = true)
    (hr : env.readerResult = some resp) :
    lookup_ip env ip = (.ok (prune (build_result ip resp)), true) ∧
    ("ip", JVal.vstr ip) ∈ prune (build_result ip resp) := by
  constructor
  · simp [lookup_ip, hv, hdb, hr]
  · have heq : build_result ip resp =
        ("ip", JVal.vstr ip) :: (build_result ip resp).tail := rfl
    rw [heq, prune_cons_stable "ip" (JVal.vstr ip) ((build_result ip resp).tail)
      rfl rfl]
    exact List.mem_cons_self _ _

/-- C10 witness: the concrete address `8.8.8.8` against a reader record
with every group absent. -/
theorem c10_ip_key_preserved_witness :
    lookup_ip ⟨true, some ⟨none, none, none, none, none, none, none, []⟩, ""⟩
        "8.8.8.8" =
      (.ok (prune (build_result "8.8.8.8"
          ⟨none, none, none, none, none, none, none, []⟩)), true) ∧
    ("ip", JVal.vstr "8.8.8.8") ∈ prune (build_result "8.8.8.8"
        ⟨none, none, none, none, none, none, none, []⟩) :=
  c10_ip_key_preserved ⟨true, some ⟨none, none, none, none, none, none, none, []⟩, ""⟩
    "8.8.8.8" ⟨none, none, none, none, none, none, none, []⟩ (by decide) rfl rfl

/-! ## Pruning invariants and idempotence (claim C6) -/

lemma truthy_not_null {v : JVal} (h : v.truthy = true) : v.isNull = false := by
  cases v <;> simp_all [JVal.truthy, JVal.isNull]

lemma anyTruthyObj_filter_nonnull {fields : List (String × JVal)}
    (h : anyTruthyObj fields = true) :
    anyTruthyObj (fields.filter (fun kv => !kv.2.isNull)) = true ∧
    (fields.filter (fun kv => !kv.2.isNull)).isEmpty = false := by
  obtain ⟨e, he, ht⟩ := List.any_eq_true.mp h
  have hn : e.2.isNull = false := truthy_not_null ht
  have hmem : e ∈ fields.filter (fun kv => !kv.2.isNull) :=
    List.mem_filter.mpr ⟨he, by simp [hn]⟩
  refine ⟨List.any_eq_true.mpr ⟨e, hmem, ht⟩, ?_⟩
  cases hfe : (fields.filter (fun kv => !kv.2.isNull)).isEmpty
  · rfl
  · rw [List.isEmpty_iff] at hfe
    rw [hfe] at hmem
    cases hmem

/-- Helper: every entry surviving `prune` is a fixed point of both
passes. -/
lemma mem_prune_stable {r : List (String × JVal)} {kv : String × JVal}
    (h : kv ∈ prune r) : keepTop kv.2 = true ∧ pruneGroup kv.2 = some kv.2 := by
  unfold prune at h
  obtain ⟨a, ha, hfa⟩ := List.mem_filterMap.mp h
  obtain ⟨har, hka⟩ := List.mem_filter.mp ha
  obtain ⟨v, hv, hkv⟩ := Option.map_eq_some'.mp hfa
  subst hkv
  cases a2eq : a.2 with
  | vnull => rw [a2eq] at hka; exact absurd hka (by simp [keepTop])
  | vbool b =>
      rw [a2eq] at hv
      obtain rfl : JVal.vbool b = v := by simpa [pruneGroup] using hv
      exact ⟨rfl, rfl⟩
  | vint n =>
      rw [a2eq] at hv
      obtain rfl : JVal.vint n = v := by simpa [pruneGroup] using hv
      exact ⟨rfl, rfl⟩
  | vstr s =>
      rw [a2eq] at hv
      obtain rfl : JVal.vstr s = v := by simpa [pruneGroup] using hv
      exact ⟨rfl, rfl⟩
  | varr elems =>
      rw [a2eq] at hv
      obtain rfl : JVal.varr elems = v := by simpa [pruneGroup] using hv
      exact ⟨rfl, rfl⟩
  | vobj fields =>
      rw [a2eq] at hka hv
      have hany : anyTruthyObj fields = true := hka
      obtain ⟨hany2, hne⟩ := anyTruthyObj_filter_nonnull hany
      have hv2 : some (JVal.vobj (fields.filter (fun kv => !kv.2.isNull))) = some v := by
        simpa [pruneGroup, hne] using hv
      obtain rfl : JVal.vobj (fields.filter (fun kv => !kv.2.isNull)) = v :=
        Option.some.inj hv2
      have hfix : (fields.filter (fun kv => !kv.2.isNull)).filter
          (fun kv => !kv.2.isNull) = fields.filter (fun kv => !kv.2.isNull) :=
        List.filter_eq_self.mpr (fun e he => (List.mem_filter.mp he).2)
      constructor
      · simpa [keepTop] using hany2
      · simp [pruneGroup, hfix, hne]

/-- Helper: a `filterMap` whose function fixes every listed element is
the identity. -/
lemma filterMap_stable {α : Type} (f : α → Option α) :
    ∀ (l : List α), (∀ a ∈ l, f a = some a) → l.filterMap f = l
  | [], _ => rfl
  | x :: xs, h => by
      rw [List.filterMap_cons, h x (List.mem_cons_self _ _),
        filterMap_stable f xs (fun a ha => h a (List.mem_cons_of_mem _ ha))]

/-- Helper: `prune` fixes any list all of whose entries are fixed points
of both passes. -/
lemma prune_fixed {r : List (String × JVal)}
    (h : ∀ kv ∈ r, keepTop kv.2 = true ∧ pruneGroup kv.2 = some kv.2) :
    prune r = r := by
  unfold prune
  rw [List.filter_eq_self.mpr (fun a ha => (h a ha).1)]
  exact filterMap_stable _ _ (fun a ha => by rw [(h a ha).2]; rfl)

/-- C6 counterexample: a successful lookup whose reader record has no
subdivisions returns a document that still CONTAINS the key
`subdivisions` mapped to an empty sequence — the pruning pass of main.py
line 194 keeps empty lists (they are not dicts), so the output is not
free of empty subdivisions sequences. -/
theorem c6_empty_subdivisions_retained_counterexample :
    lookup_ip ⟨true, some ⟨none, none, none, none, none, none, none, []⟩, ""⟩
        "8.8.8.8" =
      (LookupOutcome.ok
        [("ip", JVal.vstr "8.8.8.8"), ("subdivisions", JVal.varr [])], true) ∧
    ("subdivisions", JVal.varr []) ∈
      [("ip", JVal.vstr "8.8.8.8"), ("subdivisions", JVal.varr [])] := by
  exact ⟨rfl, by simp⟩

/-- C6 amended: the pruning pass is idempotent, and every pruned
document contains no key whose value is absent and no group object that
is empty or has an absent-valued field; HOWEVER an empty subdivisions
sequence is retained (as an empty list) rather than omitted: whenever
the reader reports no subdivisions, the pruned document still contains
`subdivisions` mapped to the empty sequence. -/
theorem c6_amended_pruning (r : List (String × JVal)) :
    prune (prune r) = prune r ∧
    (∀ kv ∈ prune r, kv.2.isNull = false) ∧
    (∀ kv ∈ prune r, ∀ fields, kv.2 = JVal.vobj fields →
        fields ≠ [] ∧ ∀ e ∈ fields, e.2.isNull = false) ∧
    (∀ (ip : String) (resp : CityResponse), resp.subdivisions = [] →
        ("subdivisions", JVal.varr []) ∈ prune (build_result ip resp)) := by
  refine ⟨prune_fixed (fun kv hkv => mem_prune_stable hkv), ?_, ?_, ?_⟩
  · intro kv hkv
    have hk := (mem_prune_stable hkv).1
    cases h2 : kv.2 <;> simp_all [keepTop, JVal.isNull]
  · intro kv hkv fields hobj
    have hp := (mem_prune_stable hkv).2
    rw [hobj] at hp
    cases hfe : (fields.filter (fun kv => !kv.2.isNull)).isEmpty
    · have hall : ∀ (a : String) (b : JVal), (a, b) ∈ fields → b.isNull = false := by
        simpa [pruneGroup, hfe] using hp
      constructor
      · intro hnil
        rw [hnil] at hfe
        simp at hfe
      · intro e he
        exact hall e.1 e.2 he
    · simp [pruneGroup, hfe] at hp
  · intro ip resp hsub
    have hmem : ("subdivisions", JVal.varr []) ∈ build_result ip resp := by
      simp [build_result, hsub]
    exact List.mem_filterMap.mpr
      ⟨("subdivisions", JVal.varr []), List.mem_filter.mpr ⟨hmem, rfl⟩, rfl⟩

/-- C6 witness: idempotence, the no-absent-key invariant and the
retained empty subdivisions sequence at concrete inputs. -/
theorem c6_amended_pruning_witness :
    prune (prune [("a", JVal.vnull)]) = prune [("a", JVal.vnull)] ∧
    ("a", JVal.vbool true).2.isNull = false ∧
    ("subdivisions", JVal.varr []) ∈
      prune (build_result "8.8.8.8" ⟨none, none, none, none, none, none, none, []⟩) := by
  have hm : ("a", JVal.vbool true) ∈ prune [("a", JVal.vbool true)] := by
    show ("a", JVal.vbool true) ∈ [("a", JVal.vbool true)]
    simp
  exact ⟨(c6_amended_pruning [("a", JVal.vnull)]).1,
    (c6_amended_pruning [("a", JVal.vbool true)]).2.1 _ hm,
    (c6_amended_pruning []).2.2.2 "8.8.8.8"
      ⟨none, none, none, none, none, none, none, []⟩ rfl⟩

end MaxmindServer
